import Mathlib

/-!
# flutter_blue_plus_winrt_plugin.h

A verification development for the one source file of the repository,
`windows/include/flutter_blue_plus_winrt/flutter_blue_plus_winrt_plugin.h`.

The header is a preprocessor program: run against a table of defined names
it yields a new table and a stretch of program text.  It is embedded as the
state-passing function `flutter_blue_plus_winrt_plugin_h`, one `let` per
directive of the source.  The text it yields is then read back by a small
reader of file-scope C/C++ declarations (`entities`), so that statements about
"the declared function" are statements about the emitted tokens.
-/

namespace FlutterBluePlusWinrt

/-! ## Preprocessing tokens and the table of defined names -/

/-- Preprocessing tokens, as far as the header spells them. -/
inductive Tok where
  /-- An identifier or keyword: the only tokens a `#define` can capture. -/
  | id (name : String)
  /-- A string literal, given by its contents. -/
  | str (contents : String)
  /-- A preprocessing number. -/
  | num (spelling : String)
  | lparen
  | rparen
  | lbrace
  | rbrace
  | semi
  | comma
  deriving DecidableEq

/-- The table of object-like `#define`s in force: the most recent definition
of a name comes first. -/
abbrev Env := List (String × List Tok)

/-- The replacement list of `n`, when `n` is defined. -/
def lookup (n : String) : Env → Option (List Tok)
  | [] => none
  | (m, body) :: rest => if m = n then some body else lookup n rest

/-- The test made by `#ifdef n`, `#ifndef n` and `defined(n)`. -/
def defined (n : String) (e : Env) : Bool := (lookup n e).isSome

/-- The directive `#define n body`. -/
def define (n : String) (body : List Tok) (e : Env) : Env := (n, body) :: e

/-- Replacement of defined names in a token list, with rescanning.  A name
under replacement is not replaced again inside its own expansion (`hide`).
`fuel` bounds the nesting depth of replacements. -/
def expand : Nat → Env → List String → List Tok → List Tok
  | 0, _, _, ts => ts
  | fuel + 1, e, hide, ts =>
    ts.flatMap fun t =>
      match t with
      | Tok.id n =>
        if n ∈ hide then [t]
        else
          match lookup n e with
          | some body => expand fuel e (n :: hide) body
          | none => [t]
      | _ => [t]

/-- What the preprocessor emits. -/
inductive Item where
  /-- The place where the text of a nested `#include <path>` is spliced in. -/
  | spliced (path : String)
  /-- A line of program text, after replacement of defined names. -/
  | line (toks : List Tok)
  deriving DecidableEq

/-- A text line of the header, as emitted under the table `e`.  Every nesting
level of a replacement hides one more defined name, so `e.length + 1` levels
are never exceeded. -/
def emit (e : Env) (toks : List Tok) : Item :=
  Item.line (expand (e.length + 1) e [] toks)

/-! ## The header -/

/-- The include guard, lines 1-2. -/
def FLUTTER_PLUGIN_FLUTTER_BLUE_PLUS_WINRT_PLUGIN_H_ : String :=
  "FLUTTER_PLUGIN_FLUTTER_BLUE_PLUS_WINRT_PLUGIN_H_"

/-- The build-time flag tested on line 6. -/
def FLUTTER_PLUGIN_IMPL : String := "FLUTTER_PLUGIN_IMPL"

/-- The name defined on lines 7 and 9. -/
def FLUTTER_PLUGIN_EXPORT : String := "FLUTTER_PLUGIN_EXPORT"

/-- The name tested on lines 12 and 19. -/
def cplusplus : String := "__cplusplus"

/-- The name of the function declared on line 16. -/
def FlutterBluePlusWinrtPluginRegisterWithRegistrar : String :=
  "FlutterBluePlusWinrtPluginRegisterWithRegistrar"

/-- The type of the parameter on line 17; it is declared by the nested
header. -/
def FlutterDesktopPluginRegistrarRef : String := "FlutterDesktopPluginRegistrarRef"

/-- Line 7, the replacement list `__declspec(dllexport)`. -/
def dllexport : List Tok :=
  [Tok.id "__declspec", Tok.lparen, Tok.id "dllexport", Tok.rparen]

/-- Line 9, the replacement list `__declspec(dllimport)`. -/
def dllimport : List Tok :=
  [Tok.id "__declspec", Tok.lparen, Tok.id "dllimport", Tok.rparen]

/-- Line 13, the text `extern "C" {`. -/
def linkageOpen : List Tok := [Tok.id "extern", Tok.str "C", Tok.lbrace]

/-- Lines 16-17, the text
`FLUTTER_PLUGIN_EXPORT void FlutterBluePlusWinrtPluginRegisterWithRegistrar(`
`    FlutterDesktopPluginRegistrarRef registrar);`. -/
def prototypeLine : List Tok :=
  [Tok.id FLUTTER_PLUGIN_EXPORT, Tok.id "void",
   Tok.id FlutterBluePlusWinrtPluginRegisterWithRegistrar, Tok.lparen,
   Tok.id FlutterDesktopPluginRegistrarRef, Tok.id "registrar", Tok.rparen, Tok.semi]

/-- Line 20, the text `}`. -/
def linkageClose : List Tok := [Tok.rbrace]

/-- The header, run against the table `e0`; the result is the table it leaves
and the items it emits.

`registrar` is what the nested header `<flutter/plugin_registrar_windows.h>`
(line 4) does to the table.  That header belongs to the host framework and is
not part of the repository, so it is a parameter; its text is not modelled and
stands in the output as `Item.spliced`. -/
def flutter_blue_plus_winrt_plugin_h (registrar : Env → Env) (e0 : Env) : Env × List Item :=
  -- 1: #ifndef FLUTTER_PLUGIN_FLUTTER_BLUE_PLUS_WINRT_PLUGIN_H_   (23: #endif)
  if defined FLUTTER_PLUGIN_FLUTTER_BLUE_PLUS_WINRT_PLUGIN_H_ e0 then (e0, [])
  else
    -- 2: #define FLUTTER_PLUGIN_FLUTTER_BLUE_PLUS_WINRT_PLUGIN_H_
    let e1 := define FLUTTER_PLUGIN_FLUTTER_BLUE_PLUS_WINRT_PLUGIN_H_ [] e0
    -- 4: #include <flutter/plugin_registrar_windows.h>
    let e2 := registrar e1
    let out4 := [Item.spliced "flutter/plugin_registrar_windows.h"]
    -- 6-10: #ifdef FLUTTER_PLUGIN_IMPL / #define ... / #else / #define ... / #endif
    let e3 :=
      if defined FLUTTER_PLUGIN_IMPL e2 then define FLUTTER_PLUGIN_EXPORT dllexport e2
      else define FLUTTER_PLUGIN_EXPORT dllimport e2
    -- 12-14: #if defined(__cplusplus) / extern "C" { / #endif
    let out13 := if defined cplusplus e3 then [emit e3 linkageOpen] else []
    -- 16-17: the prototype
    let out16 := [emit e3 prototypeLine]
    -- 19-21: #if defined(__cplusplus) / } / #endif
    let out20 := if defined cplusplus e3 then [emit e3 linkageClose] else []
    (e3, out4 ++ out13 ++ out16 ++ out20)

/-- The header included twice in a row: the second run starts from the table
the first one left, and the emitted items are concatenated. -/
def includeTwice (registrar : Env → Env) (e0 : Env) : Env × List Item :=
  let r1 := flutter_blue_plus_winrt_plugin_h registrar e0
  let r2 := flutter_blue_plus_winrt_plugin_h registrar r1.1
  (r2.1, r1.2 ++ r2.2)

/-! ## Reading the emitted text

The emitted lines are read as a sequence of file-scope entities, the way a C
or C++ compiler reads them: `extern "C" {` ... `}` blocks (C++ only), function
prototypes, definitions with a brace-enclosed body, and object declarations.
-/

/-- Language linkage of a declared function. -/
inductive Linkage where
  | c
  | cxx
  deriving DecidableEq

/-- One parameter of a prototype. -/
structure Param where
  type : List Tok
  name : Option String
  deriving DecidableEq

/-- A function declaration without a body. -/
structure Prototype where
  /-- A leading `__declspec(...)`, when there is one. -/
  attrs : List Tok
  ret : List Tok
  name : String
  params : List Param
  linkage : Linkage
  deriving DecidableEq

/-- What can stand at file scope. -/
inductive Entity where
  | prototype (p : Prototype)
  /-- Anything with a brace-enclosed part: a function body, a type
  definition, an initialiser list. -/
  | definition (toks : List Tok)
  /-- A declaration ending in `;` that has no parameter list. -/
  | object (toks : List Tok)
  /-- Text that is no declaration: an expression statement, a stray brace,
  an unfinished declaration. -/
  | malformed (toks : List Tok)
  deriving DecidableEq

/-- The program text of the emitted items, nested headers left out. -/
def textOf : List Item → List Tok
  | [] => []
  | Item.spliced _ :: rest => textOf rest
  | Item.line ts :: rest => ts ++ textOf rest

/-- Walk back from a closing parenthesis to the one that opens it.  `rev` is
the text before the closing parenthesis, last token first; the result is the
text inside the parentheses and the text before them (last token first). -/
def openGroup : Nat → List Tok → List Tok → Option (List Tok × List Tok)
  | _, [], _ => none
  | depth, Tok.rparen :: rev, inner => openGroup (depth + 1) rev (Tok.rparen :: inner)
  | 0, Tok.lparen :: rev, inner => some (inner, rev)
  | depth + 1, Tok.lparen :: rev, inner => openGroup depth rev (Tok.lparen :: inner)
  | depth, t :: rev, inner => openGroup depth rev (t :: inner)

/-- Cut a parameter list at its commas. -/
def splitCommas : List Tok → List (List Tok)
  | [] => [[]]
  | Tok.comma :: rest => [] :: splitCommas rest
  | t :: rest =>
    match splitCommas rest with
    | g :: gs => (t :: g) :: gs
    | [] => [[t]]

/-- A parameter: its last identifier is its name when a type stands before
it. -/
def toParam (g : List Tok) : Param :=
  match g.reverse with
  | Tok.id n :: t :: ts => { type := (t :: ts).reverse, name := some n }
  | _ => { type := g, name := none }

/-- The parameters between the parentheses; `()` and `(void)` have none. -/
def paramsOf (inner : List Tok) : List Param :=
  if inner = [] ∨ inner = [Tok.id "void"] then [] else (splitCommas inner).map toParam

/-- Split a leading `__declspec(...)` from the rest of the specifiers. -/
def splitAttrs : List Tok → List Tok × List Tok
  | Tok.id "__declspec" :: Tok.lparen :: a :: Tok.rparen :: rest =>
    ([Tok.id "__declspec", Tok.lparen, a, Tok.rparen], rest)
  | ts => ([], ts)

/-- Read the text of one declaration, the closing `;` taken off. -/
def classify (l : Linkage) (toks : List Tok) : Entity :=
  if Tok.lbrace ∈ toks then Entity.definition toks
  else
    match toks.reverse with
    | [] => Entity.malformed []
    | Tok.rparen :: rev =>
      match openGroup 0 rev [] with
      | some (inner, Tok.id name :: specs) =>
        match splitAttrs specs.reverse with
        | (_, []) => Entity.malformed toks
        | (attrs, ret) =>
          Entity.prototype
            { attrs := attrs, ret := ret, name := name, params := paramsOf inner, linkage := l }
      | _ => Entity.malformed toks
    | _ => Entity.object toks

/-- The state of the reader between two tokens. -/
structure Reader where
  /-- Open linkage blocks. -/
  blocks : Nat
  /-- Open braces of the brace-enclosed part being read. -/
  braces : Nat
  /-- Whether that part is a function body (it follows a `)`). -/
  fnBody : Bool
  /-- The tokens of the entity being read, last token first. -/
  pending : List Tok
  /-- The entities read so far, last one first. -/
  found : List Entity
  /-- Whether a closing brace was met that closes nothing. -/
  stray : Bool
  deriving DecidableEq

/-- The linkage a declaration gets where the reader stands: in C every
function has C linkage, in C++ only those inside a linkage block. -/
def Reader.linkage (cpp : Bool) (r : Reader) : Linkage :=
  if cpp then (if 0 < r.blocks then Linkage.c else Linkage.cxx) else Linkage.c

/-- Read one token. -/
def Reader.step (cpp : Bool) (r : Reader) (t : Tok) : Reader :=
  if 0 < r.braces then
    match t with
    | Tok.lbrace => { r with braces := r.braces + 1, pending := t :: r.pending }
    | Tok.rbrace =>
      if r.braces = 1 ∧ r.fnBody then
        { r with braces := 0, fnBody := false, pending := [],
                 found := Entity.definition (t :: r.pending).reverse :: r.found }
      else { r with braces := r.braces - 1, pending := t :: r.pending }
    | _ => { r with pending := t :: r.pending }
  else
    match t with
    | Tok.lbrace =>
      if cpp ∧ r.pending = [Tok.str "C", Tok.id "extern"] then
        { r with blocks := r.blocks + 1, pending := [] }
      else
        { r with braces := 1, fnBody := r.pending.head? = some Tok.rparen,
                 pending := t :: r.pending }
    | Tok.rbrace =>
      if 0 < r.blocks then
        { r with blocks := r.blocks - 1, pending := [],
                 found := if r.pending = [] then r.found
                          else Entity.malformed r.pending.reverse :: r.found }
      else
        { r with stray := true, pending := [],
                 found := Entity.malformed (t :: r.pending).reverse :: r.found }
    | Tok.semi =>
      { r with pending := [], found := classify (r.linkage cpp) r.pending.reverse :: r.found }
    | _ => { r with pending := t :: r.pending }

/-- The reader after a stretch of text. -/
def Reader.run (cpp : Bool) (toks : List Tok) : Reader :=
  toks.foldl (Reader.step cpp)
    { blocks := 0, braces := 0, fnBody := false, pending := [], found := [], stray := false }

/-- The file-scope entities of the emitted items, in order; `cpp` tells
whether they are read as C++. -/
def entities (cpp : Bool) (out : List Item) : List Entity :=
  let r := Reader.run cpp (textOf out)
  r.found.reverse ++ (if r.pending = [] then [] else [Entity.malformed r.pending.reverse])

/-- Whether every brace and linkage block opened in the emitted items is
closed in them, and every closing brace closes one. -/
def balanced (cpp : Bool) (out : List Item) : Bool :=
  let r := Reader.run cpp (textOf out)
  r.blocks = 0 && r.braces = 0 && !r.stray

/-- The text lines among the emitted items, in order. -/
def linesOf : List Item → List (List Tok)
  | [] => []
  | Item.spliced _ :: rest => linesOf rest
  | Item.line ts :: rest => ts :: linesOf rest

/-- The nested headers among the emitted items, in order. -/
def splicedOf : List Item → List String
  | [] => []
  | Item.spliced path :: rest => path :: splicedOf rest
  | Item.line _ :: rest => splicedOf rest

/-- The names of the functions declared at file scope, in order. -/
def declaredNames : List Entity → List String
  | [] => []
  | Entity.prototype p :: rest => p.name :: declaredNames rest
  | _ :: rest => declaredNames rest

/-- The name the specification gives the registration entry point
(section 4.1: "declare one function, `RegisterWithRegistrar`"). -/
def specEntryPoint : String := "RegisterWithRegistrar"

/-- A nested header that defines a name of its own and nothing else. -/
def nestedSample (e : Env) : Env := define "NESTED_HEADER_H_" [] e

/-- A C++ build of the plugin itself: `__cplusplus` and `FLUTTER_PLUGIN_IMPL`
are defined. -/
def cppImplTable : Env := [("__cplusplus", [Tok.num "201703L"]), ("FLUTTER_PLUGIN_IMPL", [])]

/-- A C++ build of a consumer of the plugin: only `__cplusplus` is defined. -/
def cppUserTable : Env := [("__cplusplus", [Tok.num "201703L"])]

/-- A C build of a consumer of the plugin: neither name is defined. -/
def cUserTable : Env := []

/-! ## Where the header is included -/

/-- The names the header tests with `#ifndef`, `#ifdef` and `defined`. -/
def tested : List String :=
  [FLUTTER_PLUGIN_FLUTTER_BLUE_PLUS_WINRT_PLUGIN_H_, FLUTTER_PLUGIN_IMPL, cplusplus]

/-- The identifiers the header spells in its text lines and replacement lists,
`FLUTTER_PLUGIN_EXPORT` (which it defines itself) apart. -/
def spelled : List String :=
  ["extern", "void", FlutterBluePlusWinrtPluginRegisterWithRegistrar,
   FlutterDesktopPluginRegistrarRef, "registrar", "__declspec", "dllexport", "dllimport"]

/-- The nested header leaves the names this header tests and spells as it
found them. -/
def Respects (registrar : Env → Env) : Prop :=
  ∀ e n, n ∈ tested ++ spelled → lookup n (registrar e) = lookup n e

/-- A table in which the header is included for the first time and no
`#define` captures an identifier of its text. -/
def Fresh (e : Env) : Prop :=
  defined FLUTTER_PLUGIN_FLUTTER_BLUE_PLUS_WINRT_PLUGIN_H_ e = false ∧
    ∀ n ∈ spelled, lookup n e = none

instance (e : Env) : Decidable (Fresh e) := by
  unfold Fresh; infer_instance

/-- The replacement list the header gives `FLUTTER_PLUGIN_EXPORT` when the
build flag is set (`true`) or not. -/
def exportBody (impl : Bool) : List Tok := if impl then dllexport else dllimport

/-! ## Lemmas on the table and on replacement -/

theorem lookup_define (n m : String) (body : List Tok) (e : Env) :
    lookup n (define m body e) = if m = n then some body else lookup n e := rfl

theorem defined_define_self (n : String) (body : List Tok) (e : Env) :
    defined n (define n body e) = true := by
  simp [defined, lookup_define]

theorem expand_nil (fuel : Nat) (e : Env) (hide : List String) :
    expand fuel e hide [] = [] := by
  cases fuel <;> simp [expand]

theorem expand_cons_other (fuel : Nat) (e : Env) (hide : List String) (t : Tok) (ts : List Tok)
    (ht : ∀ n, t ≠ Tok.id n) :
    expand (fuel + 1) e hide (t :: ts) = t :: expand (fuel + 1) e hide ts := by
  cases t with
  | id n => exact absurd rfl (ht n)
  | _ => simp [expand]

theorem expand_cons_undefined (fuel : Nat) (e : Env) (hide : List String) (n : String)
    (ts : List Tok) (hn : lookup n e = none) :
    expand (fuel + 1) e hide (Tok.id n :: ts) = Tok.id n :: expand (fuel + 1) e hide ts := by
  by_cases hh : n ∈ hide <;> simp [expand, hn, hh]

theorem expand_cons_defined (fuel : Nat) (e : Env) (hide : List String) (n : String)
    (body ts : List Tok) (hn : lookup n e = some body) (hh : n ∉ hide) :
    expand (fuel + 1) e hide (Tok.id n :: ts) =
      expand fuel e (n :: hide) body ++ expand (fuel + 1) e hide ts := by
  simp [expand, hn, hh]

/-! ## The header on a fresh table -/

/-- The table after the guard is defined and the nested header is read. -/
theorem lookup_after_nested (registrar : Env → Env) (e : Env) (n : String)
    (hr : Respects registrar) (hn : n ∈ tested ++ spelled)
    (hg : n ≠ FLUTTER_PLUGIN_FLUTTER_BLUE_PLUS_WINRT_PLUGIN_H_) :
    lookup n (registrar (define FLUTTER_PLUGIN_FLUTTER_BLUE_PLUS_WINRT_PLUGIN_H_ [] e)) =
      lookup n e := by
  rw [hr _ n hn, lookup_define, if_neg (fun h => hg h.symm)]

theorem spelled_ne_guard (n : String) (hn : n ∈ spelled) :
    n ≠ FLUTTER_PLUGIN_FLUTTER_BLUE_PLUS_WINRT_PLUGIN_H_ := by
  intro h
  subst h
  revert hn
  decide

theorem spelled_ne_export (n : String) (hn : n ∈ spelled) : n ≠ FLUTTER_PLUGIN_EXPORT := by
  intro h
  subst h
  revert hn
  decide

/-- No identifier of the text is captured in the table the text lines are
emitted under. -/
theorem spelled_undefined (registrar : Env → Env) (e : Env) (body : List Tok) (n : String)
    (hr : Respects registrar) (he : Fresh e) (hn : n ∈ spelled) :
    lookup n (define FLUTTER_PLUGIN_EXPORT body
      (registrar (define FLUTTER_PLUGIN_FLUTTER_BLUE_PLUS_WINRT_PLUGIN_H_ [] e))) = none := by
  rw [lookup_define, if_neg (fun h => spelled_ne_export n hn h.symm),
    lookup_after_nested registrar e n hr (List.mem_append_right _ hn) (spelled_ne_guard n hn)]
  exact he.2 n hn

theorem impl_after_nested (registrar : Env → Env) (e : Env) (hr : Respects registrar) :
    defined FLUTTER_PLUGIN_IMPL
      (registrar (define FLUTTER_PLUGIN_FLUTTER_BLUE_PLUS_WINRT_PLUGIN_H_ [] e)) =
      defined FLUTTER_PLUGIN_IMPL e := by
  unfold defined
  rw [lookup_after_nested registrar e _ hr (by decide) (by decide)]

theorem cplusplus_after (registrar : Env → Env) (e : Env) (body : List Tok)
    (hr : Respects registrar) :
    defined cplusplus (define FLUTTER_PLUGIN_EXPORT body
      (registrar (define FLUTTER_PLUGIN_FLUTTER_BLUE_PLUS_WINRT_PLUGIN_H_ [] e))) =
      defined cplusplus e := by
  unfold defined
  rw [lookup_define, if_neg (by decide),
    lookup_after_nested registrar e _ hr (by decide) (by decide)]

/-- The text lines after replacement, under a table that captures none of
their identifiers and gives `FLUTTER_PLUGIN_EXPORT` a replacement list
`__declspec(x)`: two levels of replacement are all that is used, whatever
the fuel beyond them. -/
theorem expand_lines (k : Nat) (e : Env) (x : String)
    (hx : x ∈ ["dllexport", "dllimport"])
    (h0 : lookup FLUTTER_PLUGIN_EXPORT e =
      some [Tok.id "__declspec", Tok.lparen, Tok.id x, Tok.rparen])
    (hs : ∀ n ∈ spelled, lookup n e = none) :
    expand (k + 2) e [] linkageOpen = linkageOpen ∧
    expand (k + 2) e [] prototypeLine =
      [Tok.id "__declspec", Tok.lparen, Tok.id x, Tok.rparen] ++ prototypeLine.tail ∧
    expand (k + 2) e [] linkageClose = linkageClose := by
  have hx' : x ∈ spelled := by
    simp only [List.mem_cons, List.mem_singleton, List.not_mem_nil, or_false] at hx
    rcases hx with rfl | rfl <;> decide
  have h1 := hs "extern" (by decide)
  have h2 := hs "void" (by decide)
  have h3 := hs FlutterBluePlusWinrtPluginRegisterWithRegistrar (by decide)
  have h4 := hs FlutterDesktopPluginRegistrarRef (by decide)
  have h5 := hs "registrar" (by decide)
  have h6 := hs "__declspec" (by decide)
  have h7 := hs x hx'
  refine ⟨?_, ?_, ?_⟩
  · unfold linkageOpen
    rw [expand_cons_undefined _ _ _ _ _ h1, expand_cons_other _ _ _ _ _ (by simp),
      expand_cons_other _ _ _ _ _ (by simp), expand_nil]
  · unfold prototypeLine
    rw [expand_cons_defined _ _ _ _ _ _ h0 (by simp),
      expand_cons_undefined _ _ _ _ _ h6, expand_cons_other _ _ _ _ _ (by simp),
      expand_cons_undefined _ _ _ _ _ h7, expand_cons_other _ _ _ _ _ (by simp), expand_nil,
      expand_cons_undefined _ _ _ _ _ h2, expand_cons_undefined _ _ _ _ _ h3,
      expand_cons_other _ _ _ _ _ (by simp), expand_cons_undefined _ _ _ _ _ h4,
      expand_cons_undefined _ _ _ _ _ h5, expand_cons_other _ _ _ _ _ (by simp),
      expand_cons_other _ _ _ _ _ (by simp), expand_nil]
    rfl
  · unfold linkageClose
    rw [expand_cons_other _ _ _ _ _ (by simp), expand_nil]

/-- The text lines as the header emits them, under the same conditions. -/
theorem emit_lines (e : Env) (x : String)
    (hx : x ∈ ["dllexport", "dllimport"])
    (hs : ∀ n ∈ spelled, lookup n (define FLUTTER_PLUGIN_EXPORT
      [Tok.id "__declspec", Tok.lparen, Tok.id x, Tok.rparen] e) = none) :
    emit (define FLUTTER_PLUGIN_EXPORT [Tok.id "__declspec", Tok.lparen, Tok.id x, Tok.rparen] e)
        linkageOpen = Item.line linkageOpen ∧
    emit (define FLUTTER_PLUGIN_EXPORT [Tok.id "__declspec", Tok.lparen, Tok.id x, Tok.rparen] e)
        prototypeLine =
      Item.line ([Tok.id "__declspec", Tok.lparen, Tok.id x, Tok.rparen] ++ prototypeLine.tail) ∧
    emit (define FLUTTER_PLUGIN_EXPORT [Tok.id "__declspec", Tok.lparen, Tok.id x, Tok.rparen] e)
        linkageClose = Item.line linkageClose := by
  have h0 : lookup FLUTTER_PLUGIN_EXPORT (define FLUTTER_PLUGIN_EXPORT
      [Tok.id "__declspec", Tok.lparen, Tok.id x, Tok.rparen] e) =
      some [Tok.id "__declspec", Tok.lparen, Tok.id x, Tok.rparen] := by
    rw [lookup_define, if_pos rfl]
  obtain ⟨h1, h2, h3⟩ := expand_lines e.length _ x hx h0 hs
  unfold emit
  exact ⟨congrArg Item.line h1, congrArg Item.line h2, congrArg Item.line h3⟩

/-- The header on a fresh table, every directive resolved: the table it
leaves and the items it emits depend on the table it starts from only through
the two tests `defined FLUTTER_PLUGIN_IMPL` and `defined __cplusplus`. -/
theorem header_fresh (registrar : Env → Env) (e : Env) (hr : Respects registrar)
    (he : Fresh e) :
    flutter_blue_plus_winrt_plugin_h registrar e =
      (define FLUTTER_PLUGIN_EXPORT (exportBody (defined FLUTTER_PLUGIN_IMPL e))
          (registrar (define FLUTTER_PLUGIN_FLUTTER_BLUE_PLUS_WINRT_PLUGIN_H_ [] e)),
        [Item.spliced "flutter/plugin_registrar_windows.h"] ++
          (if defined cplusplus e then [Item.line linkageOpen] else []) ++
          [Item.line (exportBody (defined FLUTTER_PLUGIN_IMPL e) ++ prototypeLine.tail)] ++
          (if defined cplusplus e then [Item.line linkageClose] else [])) := by
  unfold flutter_blue_plus_winrt_plugin_h
  rw [if_neg (by simp [he.1])]
  simp only [impl_after_nested registrar e hr]
  cases hi : defined FLUTTER_PLUGIN_IMPL e
  · obtain ⟨h1, h2, h3⟩ := emit_lines
      (registrar (define FLUTTER_PLUGIN_FLUTTER_BLUE_PLUS_WINRT_PLUGIN_H_ [] e)) "dllimport"
      (by decide) (fun n hn => spelled_undefined registrar e _ n hr he hn)
    simp only [Bool.false_eq_true, if_false, exportBody, dllimport, cplusplus_after registrar e _ hr,
      h1, h2, h3]
  · obtain ⟨h1, h2, h3⟩ := emit_lines
      (registrar (define FLUTTER_PLUGIN_FLUTTER_BLUE_PLUS_WINRT_PLUGIN_H_ [] e)) "dllexport"
      (by decide) (fun n hn => spelled_undefined registrar e _ n hr he hn)
    simp only [if_true, exportBody, dllexport, cplusplus_after registrar e _ hr, h1, h2, h3]

theorem nestedSample_respects : Respects nestedSample := by
  intro e n hn
  have hne : "NESTED_HEADER_H_" ≠ n := by
    intro h
    subst h
    revert hn
    decide
  rw [nestedSample, lookup_define, if_neg hne]

/-- The guard is defined once the header has been read. -/
theorem guard_defined_after (registrar : Env → Env) (e : Env) (hr : Respects registrar) :
    defined FLUTTER_PLUGIN_FLUTTER_BLUE_PLUS_WINRT_PLUGIN_H_
      (flutter_blue_plus_winrt_plugin_h registrar e).1 = true := by
  unfold flutter_blue_plus_winrt_plugin_h
  cases hg : defined FLUTTER_PLUGIN_FLUTTER_BLUE_PLUS_WINRT_PLUGIN_H_ e
  · have h : ∀ body, defined FLUTTER_PLUGIN_FLUTTER_BLUE_PLUS_WINRT_PLUGIN_H_
        (define FLUTTER_PLUGIN_EXPORT body
          (registrar (define FLUTTER_PLUGIN_FLUTTER_BLUE_PLUS_WINRT_PLUGIN_H_ [] e))) = true := by
      intro body
      unfold defined
      rw [lookup_define, if_neg (by decide), hr _ _ (by decide), lookup_define, if_pos rfl]
      rfl
    simp only [Bool.false_eq_true, if_false]
    split <;> exact h _
  · simpa using hg

/-! ## The claims -/

/-- C1: in every build configuration, once the header has been read from a
table in which its guard was not yet defined, `FLUTTER_PLUGIN_EXPORT` is
defined; its replacement list is `__declspec(dllexport)` if and only if
`FLUTTER_PLUGIN_IMPL` is defined, `__declspec(dllimport)` if and only if it is
not, and it is never anything else. -/
theorem export_resolves (registrar : Env → Env) (e : Env) (hr : Respects registrar)
    (hg : defined FLUTTER_PLUGIN_FLUTTER_BLUE_PLUS_WINRT_PLUGIN_H_ e = false) :
    defined FLUTTER_PLUGIN_EXPORT (flutter_blue_plus_winrt_plugin_h registrar e).1 = true ∧
    (lookup FLUTTER_PLUGIN_EXPORT (flutter_blue_plus_winrt_plugin_h registrar e).1 =
        some dllexport ↔ defined FLUTTER_PLUGIN_IMPL e = true) ∧
    (lookup FLUTTER_PLUGIN_EXPORT (flutter_blue_plus_winrt_plugin_h registrar e).1 =
        some dllimport ↔ defined FLUTTER_PLUGIN_IMPL e = false) ∧
    (lookup FLUTTER_PLUGIN_EXPORT (flutter_blue_plus_winrt_plugin_h registrar e).1 =
        some dllexport ∨
      lookup FLUTTER_PLUGIN_EXPORT (flutter_blue_plus_winrt_plugin_h registrar e).1 =
        some dllimport) := by
  have key : lookup FLUTTER_PLUGIN_EXPORT (flutter_blue_plus_winrt_plugin_h registrar e).1 =
      some (exportBody (defined FLUTTER_PLUGIN_IMPL e)) := by
    unfold flutter_blue_plus_winrt_plugin_h
    rw [if_neg (by simp [hg])]
    simp only [impl_after_nested registrar e hr]
    cases defined FLUTTER_PLUGIN_IMPL e <;> rfl
  have hdef : defined FLUTTER_PLUGIN_EXPORT (flutter_blue_plus_winrt_plugin_h registrar e).1 =
      true := by
    unfold defined
    rw [key]
    rfl
  refine ⟨hdef, ?_⟩
  rw [key]
  generalize defined FLUTTER_PLUGIN_IMPL e = impl
  cases impl <;> decide

/-- Witness for C1: a C++ build of the plugin, with a nested header that
defines a name of its own. -/
theorem export_resolves_witness :
    Respects nestedSample ∧
    defined FLUTTER_PLUGIN_FLUTTER_BLUE_PLUS_WINRT_PLUGIN_H_ cppImplTable = false ∧
    (defined FLUTTER_PLUGIN_EXPORT
        (flutter_blue_plus_winrt_plugin_h nestedSample cppImplTable).1 = true ∧
    (lookup FLUTTER_PLUGIN_EXPORT (flutter_blue_plus_winrt_plugin_h nestedSample cppImplTable).1 =
        some dllexport ↔ defined FLUTTER_PLUGIN_IMPL cppImplTable = true) ∧
    (lookup FLUTTER_PLUGIN_EXPORT (flutter_blue_plus_winrt_plugin_h nestedSample cppImplTable).1 =
        some dllimport ↔ defined FLUTTER_PLUGIN_IMPL cppImplTable = false) ∧
    (lookup FLUTTER_PLUGIN_EXPORT (flutter_blue_plus_winrt_plugin_h nestedSample cppImplTable).1 =
        some dllexport ∨
      lookup FLUTTER_PLUGIN_EXPORT (flutter_blue_plus_winrt_plugin_h nestedSample cppImplTable).1 =
        some dllimport)) :=
  ⟨nestedSample_respects, by decide,
    export_resolves nestedSample cppImplTable nestedSample_respects (by decide)⟩

/-- C2: in every build configuration (`FLUTTER_PLUGIN_IMPL` defined or not, C
or C++), a first inclusion of the header emits text that reads as exactly one
file-scope entity, a function prototype; it has C linkage, returns `void` and
has exactly one parameter, of type `FlutterDesktopPluginRegistrarRef`. -/
theorem one_prototype (registrar : Env → Env) (e : Env) (hr : Respects registrar)
    (he : Fresh e) :
    ∃ p : Prototype,
      entities (defined cplusplus e) (flutter_blue_plus_winrt_plugin_h registrar e).2 =
        [Entity.prototype p] ∧
      p.linkage = Linkage.c ∧ p.ret = [Tok.id "void"] ∧
      p.params.map Param.type = [[Tok.id FlutterDesktopPluginRegistrarRef]] := by
  rw [header_fresh registrar e hr he]
  simp only []
  generalize defined FLUTTER_PLUGIN_IMPL e = impl
  generalize defined cplusplus e = cpp
  cases impl <;> cases cpp <;> exact ⟨_, rfl, rfl, rfl, rfl⟩

/-- Witness for C2: a C build of a consumer of the plugin. -/
theorem one_prototype_witness :
    Respects nestedSample ∧ Fresh cUserTable ∧
    ∃ p : Prototype,
      entities (defined cplusplus cUserTable)
          (flutter_blue_plus_winrt_plugin_h nestedSample cUserTable).2 =
        [Entity.prototype p] ∧
      p.linkage = Linkage.c ∧ p.ret = [Tok.id "void"] ∧
      p.params.map Param.type = [[Tok.id FlutterDesktopPluginRegistrarRef]] :=
  ⟨nestedSample_respects, by decide,
    one_prototype nestedSample cUserTable nestedSample_respects (by decide)⟩

/-- C3: from every table, reading the header twice in a row leaves the same
table and emits the same items as reading it once: after the first reading the
guard `FLUTTER_PLUGIN_FLUTTER_BLUE_PLUS_WINRT_PLUGIN_H_` is defined, and the
second reading emits nothing and leaves the table as it is. -/
theorem include_idempotent (registrar : Env → Env) (e : Env) (hr : Respects registrar) :
    includeTwice registrar e = flutter_blue_plus_winrt_plugin_h registrar e ∧
    defined FLUTTER_PLUGIN_FLUTTER_BLUE_PLUS_WINRT_PLUGIN_H_
      (flutter_blue_plus_winrt_plugin_h registrar e).1 = true ∧
    flutter_blue_plus_winrt_plugin_h registrar (flutter_blue_plus_winrt_plugin_h registrar e).1 =
      ((flutter_blue_plus_winrt_plugin_h registrar e).1, []) := by
  have hg := guard_defined_after registrar e hr
  have h2 : flutter_blue_plus_winrt_plugin_h registrar
      (flutter_blue_plus_winrt_plugin_h registrar e).1 =
      ((flutter_blue_plus_winrt_plugin_h registrar e).1, []) := by
    generalize (flutter_blue_plus_winrt_plugin_h registrar e).1 = e1 at hg ⊢
    unfold flutter_blue_plus_winrt_plugin_h
    rw [if_pos hg]
  refine ⟨?_, hg, h2⟩
  unfold includeTwice
  simp only [h2, List.append_nil]

/-- Witness for C3: a C++ build of a consumer of the plugin. -/
theorem include_idempotent_witness :
    Respects nestedSample ∧
    (includeTwice nestedSample cppUserTable =
        flutter_blue_plus_winrt_plugin_h nestedSample cppUserTable ∧
    defined FLUTTER_PLUGIN_FLUTTER_BLUE_PLUS_WINRT_PLUGIN_H_
      (flutter_blue_plus_winrt_plugin_h nestedSample cppUserTable).1 = true ∧
    flutter_blue_plus_winrt_plugin_h nestedSample
        (flutter_blue_plus_winrt_plugin_h nestedSample cppUserTable).1 =
      ((flutter_blue_plus_winrt_plugin_h nestedSample cppUserTable).1, [])) :=
  ⟨nestedSample_respects, include_idempotent nestedSample cppUserTable nestedSample_respects⟩

/-- C4: take two first inclusions in the same language mode, one with
`FLUTTER_PLUGIN_IMPL` defined and one without.  Both emit one prototype, with
the same name, linkage, parameter list and return type; the two prototypes
differ in their leading `__declspec(...)` only, which in each is the
replacement list of `FLUTTER_PLUGIN_EXPORT`, and the emitted items are the same
but for these tokens. -/
theorem same_declaration (registrar : Env → Env) (e1 e2 : Env) (hr : Respects registrar)
    (h1 : Fresh e1) (h2 : Fresh e2)
    (hi1 : defined FLUTTER_PLUGIN_IMPL e1 = true) (hi2 : defined FLUTTER_PLUGIN_IMPL e2 = false)
    (hl : defined cplusplus e1 = defined cplusplus e2) :
    ∃ p1 p2 : Prototype,
      entities (defined cplusplus e1) (flutter_blue_plus_winrt_plugin_h registrar e1).2 =
        [Entity.prototype p1] ∧
      entities (defined cplusplus e2) (flutter_blue_plus_winrt_plugin_h registrar e2).2 =
        [Entity.prototype p2] ∧
      p1.name = p2.name ∧ p1.linkage = p2.linkage ∧ p1.params = p2.params ∧ p1.ret = p2.ret ∧
      lookup FLUTTER_PLUGIN_EXPORT (flutter_blue_plus_winrt_plugin_h registrar e1).1 =
        some p1.attrs ∧
      lookup FLUTTER_PLUGIN_EXPORT (flutter_blue_plus_winrt_plugin_h registrar e2).1 =
        some p2.attrs ∧
      ∃ (before after : List Item) (rest : List Tok),
        (flutter_blue_plus_winrt_plugin_h registrar e1).2 =
          before ++ [Item.line (p1.attrs ++ rest)] ++ after ∧
        (flutter_blue_plus_winrt_plugin_h registrar e2).2 =
          before ++ [Item.line (p2.attrs ++ rest)] ++ after := by
  rw [header_fresh registrar e1 hr h1, header_fresh registrar e2 hr h2, hi1, hi2, hl]
  simp only []
  generalize defined cplusplus e2 = cpp
  cases cpp
  · exact ⟨_, _, rfl, rfl, rfl, rfl, rfl, rfl, rfl, rfl,
      [Item.spliced "flutter/plugin_registrar_windows.h"], [], prototypeLine.tail, rfl, rfl⟩
  · exact ⟨_, _, rfl, rfl, rfl, rfl, rfl, rfl, rfl, rfl,
      [Item.spliced "flutter/plugin_registrar_windows.h", Item.line linkageOpen],
      [Item.line linkageClose], prototypeLine.tail, rfl, rfl⟩

/-- Witness for C4: the C++ build of the plugin against the C++ build of a
consumer. -/
theorem same_declaration_witness :
    Respects nestedSample ∧ Fresh cppImplTable ∧ Fresh cppUserTable ∧
    defined FLUTTER_PLUGIN_IMPL cppImplTable = true ∧
    defined FLUTTER_PLUGIN_IMPL cppUserTable = false ∧
    defined cplusplus cppImplTable = defined cplusplus cppUserTable ∧
    ∃ p1 p2 : Prototype,
      entities (defined cplusplus cppImplTable)
          (flutter_blue_plus_winrt_plugin_h nestedSample cppImplTable).2 =
        [Entity.prototype p1] ∧
      entities (defined cplusplus cppUserTable)
          (flutter_blue_plus_winrt_plugin_h nestedSample cppUserTable).2 =
        [Entity.prototype p2] ∧
      p1.name = p2.name ∧ p1.linkage = p2.linkage ∧ p1.params = p2.params ∧ p1.ret = p2.ret ∧
      lookup FLUTTER_PLUGIN_EXPORT (flutter_blue_plus_winrt_plugin_h nestedSample cppImplTable).1 =
        some p1.attrs ∧
      lookup FLUTTER_PLUGIN_EXPORT (flutter_blue_plus_winrt_plugin_h nestedSample cppUserTable).1 =
        some p2.attrs ∧
      ∃ (before after : List Item) (rest : List Tok),
        (flutter_blue_plus_winrt_plugin_h nestedSample cppImplTable).2 =
          before ++ [Item.line (p1.attrs ++ rest)] ++ after ∧
        (flutter_blue_plus_winrt_plugin_h nestedSample cppUserTable).2 =
          before ++ [Item.line (p2.attrs ++ rest)] ++ after :=
  ⟨nestedSample_respects, by decide, by decide, by decide, by decide, by decide,
    same_declaration nestedSample cppImplTable cppUserTable nestedSample_respects
      (by decide) (by decide) (by decide) (by decide) (by decide)⟩

/-- C5 as stated fails: in a C build of a consumer the one declared function
is named `FlutterBluePlusWinrtPluginRegisterWithRegistrar`, which is not the
name `RegisterWithRegistrar` of the specification. -/
theorem declared_name_differs :
    declaredNames (entities (defined cplusplus cUserTable)
        (flutter_blue_plus_winrt_plugin_h nestedSample cUserTable).2) =
      [FlutterBluePlusWinrtPluginRegisterWithRegistrar] ∧
    declaredNames (entities (defined cplusplus cUserTable)
        (flutter_blue_plus_winrt_plugin_h nestedSample cUserTable).2) ≠ [specEntryPoint] := by
  decide

/-- C5, amended: in every build configuration a first inclusion declares one
function, and its name is `FlutterBluePlusWinrtPluginRegisterWithRegistrar`,
the specification's `RegisterWithRegistrar` with the plugin's name
`FlutterBluePlusWinrtPlugin` in front. -/
theorem declared_name (registrar : Env → Env) (e : Env) (hr : Respects registrar)
    (he : Fresh e) :
    declaredNames (entities (defined cplusplus e)
        (flutter_blue_plus_winrt_plugin_h registrar e).2) =
      [FlutterBluePlusWinrtPluginRegisterWithRegistrar] ∧
    FlutterBluePlusWinrtPluginRegisterWithRegistrar =
      "FlutterBluePlusWinrtPlugin" ++ specEntryPoint := by
  rw [header_fresh registrar e hr he]
  simp only []
  generalize defined FLUTTER_PLUGIN_IMPL e = impl
  generalize defined cplusplus e = cpp
  cases impl <;> cases cpp <;> decide

/-- Witness for C5, amended: a C++ build of the plugin. -/
theorem declared_name_witness :
    Respects nestedSample ∧ Fresh cppImplTable ∧
    (declaredNames (entities (defined cplusplus cppImplTable)
        (flutter_blue_plus_winrt_plugin_h nestedSample cppImplTable).2) =
      [FlutterBluePlusWinrtPluginRegisterWithRegistrar] ∧
    FlutterBluePlusWinrtPluginRegisterWithRegistrar =
      "FlutterBluePlusWinrtPlugin" ++ specEntryPoint) :=
  ⟨nestedSample_respects, by decide,
    declared_name nestedSample cppImplTable nestedSample_respects (by decide)⟩

/-- C6: in every build configuration what a first inclusion emits reads as one
prototype and nothing else: no entity with a brace-enclosed body, no object
declaration, no text that is not a declaration.  Besides, the only nested
header is `<flutter/plugin_registrar_windows.h>`, and the table is changed by
the nested header and by the definitions of the guard and of
`FLUTTER_PLUGIN_EXPORT` only. -/
theorem only_a_declaration (registrar : Env → Env) (e : Env) (hr : Respects registrar)
    (he : Fresh e) :
    (∃ p : Prototype,
      entities (defined cplusplus e) (flutter_blue_plus_winrt_plugin_h registrar e).2 =
        [Entity.prototype p]) ∧
    (∀ toks : List Tok,
      Entity.definition toks ∉
        entities (defined cplusplus e) (flutter_blue_plus_winrt_plugin_h registrar e).2 ∧
      Entity.object toks ∉
        entities (defined cplusplus e) (flutter_blue_plus_winrt_plugin_h registrar e).2 ∧
      Entity.malformed toks ∉
        entities (defined cplusplus e) (flutter_blue_plus_winrt_plugin_h registrar e).2) ∧
    splicedOf (flutter_blue_plus_winrt_plugin_h registrar e).2 =
      ["flutter/plugin_registrar_windows.h"] ∧
    (flutter_blue_plus_winrt_plugin_h registrar e).1 =
      define FLUTTER_PLUGIN_EXPORT (exportBody (defined FLUTTER_PLUGIN_IMPL e))
        (registrar (define FLUTTER_PLUGIN_FLUTTER_BLUE_PLUS_WINRT_PLUGIN_H_ [] e)) := by
  rw [header_fresh registrar e hr he]
  simp only []
  generalize defined FLUTTER_PLUGIN_IMPL e = impl
  generalize defined cplusplus e = cpp
  have hone : ∃ p : Prototype,
      entities cpp ([Item.spliced "flutter/plugin_registrar_windows.h"] ++
        (if cpp = true then [Item.line linkageOpen] else []) ++
        [Item.line (exportBody impl ++ prototypeLine.tail)] ++
        (if cpp = true then [Item.line linkageClose] else [])) = [Entity.prototype p] := by
    cases impl <;> cases cpp <;> exact ⟨_, rfl⟩
  obtain ⟨p, hp⟩ := hone
  rw [hp]
  refine ⟨⟨p, rfl⟩, fun toks => ?_, ?_, trivial⟩
  · simp
  · cases cpp <;> rfl

/-- Witness for C6: a C++ build of a consumer of the plugin. -/
theorem only_a_declaration_witness :
    Respects nestedSample ∧ Fresh cppUserTable ∧
    ((∃ p : Prototype,
      entities (defined cplusplus cppUserTable)
          (flutter_blue_plus_winrt_plugin_h nestedSample cppUserTable).2 =
        [Entity.prototype p]) ∧
    (∀ toks : List Tok,
      Entity.definition toks ∉
        entities (defined cplusplus cppUserTable)
          (flutter_blue_plus_winrt_plugin_h nestedSample cppUserTable).2 ∧
      Entity.object toks ∉
        entities (defined cplusplus cppUserTable)
          (flutter_blue_plus_winrt_plugin_h nestedSample cppUserTable).2 ∧
      Entity.malformed toks ∉
        entities (defined cplusplus cppUserTable)
          (flutter_blue_plus_winrt_plugin_h nestedSample cppUserTable).2) ∧
    splicedOf (flutter_blue_plus_winrt_plugin_h nestedSample cppUserTable).2 =
      ["flutter/plugin_registrar_windows.h"] ∧
    (flutter_blue_plus_winrt_plugin_h nestedSample cppUserTable).1 =
      define FLUTTER_PLUGIN_EXPORT (exportBody (defined FLUTTER_PLUGIN_IMPL cppUserTable))
        (nestedSample (define FLUTTER_PLUGIN_FLUTTER_BLUE_PLUS_WINRT_PLUGIN_H_ [] cppUserTable))) :=
  ⟨nestedSample_respects, by decide,
    only_a_declaration nestedSample cppUserTable nestedSample_respects (by decide)⟩

/-- C7: on a first inclusion the line `extern "C" {` is emitted if and only if
`__cplusplus` is defined, and so is the line `}`.  In C++ the emitted lines are
the opening line, the prototype, the closing line, in this order; in C the
prototype is the only line.  In both language modes the prototype reads as a
function with C linkage, every opened block is closed, and the emitted text
has as many opening as closing braces. -/
theorem linkage_wrapper (registrar : Env → Env) (e : Env) (hr : Respects registrar)
    (he : Fresh e) :
    (linkageOpen ∈ linesOf (flutter_blue_plus_winrt_plugin_h registrar e).2 ↔
      defined cplusplus e = true) ∧
    (linkageClose ∈ linesOf (flutter_blue_plus_winrt_plugin_h registrar e).2 ↔
      defined cplusplus e = true) ∧
    (defined cplusplus e = true →
      linesOf (flutter_blue_plus_winrt_plugin_h registrar e).2 =
        [linkageOpen, exportBody (defined FLUTTER_PLUGIN_IMPL e) ++ prototypeLine.tail,
          linkageClose]) ∧
    (defined cplusplus e = false →
      linesOf (flutter_blue_plus_winrt_plugin_h registrar e).2 =
        [exportBody (defined FLUTTER_PLUGIN_IMPL e) ++ prototypeLine.tail]) ∧
    (∃ p : Prototype,
      entities (defined cplusplus e) (flutter_blue_plus_winrt_plugin_h registrar e).2 =
        [Entity.prototype p] ∧ p.linkage = Linkage.c) ∧
    balanced (defined cplusplus e) (flutter_blue_plus_winrt_plugin_h registrar e).2 = true ∧
    (textOf (flutter_blue_plus_winrt_plugin_h registrar e).2).count Tok.lbrace =
      (textOf (flutter_blue_plus_winrt_plugin_h registrar e).2).count Tok.rbrace := by
  rw [header_fresh registrar e hr he]
  simp only []
  generalize defined FLUTTER_PLUGIN_IMPL e = impl
  generalize defined cplusplus e = cpp
  cases impl <;> cases cpp <;>
    exact ⟨by decide, by decide, by decide, by decide, ⟨_, rfl, rfl⟩, by decide, by decide⟩

/-- Witness for C7: a C++ build of the plugin. -/
theorem linkage_wrapper_witness :
    Respects nestedSample ∧ Fresh cppImplTable ∧
    ((linkageOpen ∈ linesOf (flutter_blue_plus_winrt_plugin_h nestedSample cppImplTable).2 ↔
      defined cplusplus cppImplTable = true) ∧
    (linkageClose ∈ linesOf (flutter_blue_plus_winrt_plugin_h nestedSample cppImplTable).2 ↔
      defined cplusplus cppImplTable = true) ∧
    (defined cplusplus cppImplTable = true →
      linesOf (flutter_blue_plus_winrt_plugin_h nestedSample cppImplTable).2 =
        [linkageOpen, exportBody (defined FLUTTER_PLUGIN_IMPL cppImplTable) ++ prototypeLine.tail,
          linkageClose]) ∧
    (defined cplusplus cppImplTable = false →
      linesOf (flutter_blue_plus_winrt_plugin_h nestedSample cppImplTable).2 =
        [exportBody (defined FLUTTER_PLUGIN_IMPL cppImplTable) ++ prototypeLine.tail]) ∧
    (∃ p : Prototype,
      entities (defined cplusplus cppImplTable)
          (flutter_blue_plus_winrt_plugin_h nestedSample cppImplTable).2 =
        [Entity.prototype p] ∧ p.linkage = Linkage.c) ∧
    balanced (defined cplusplus cppImplTable)
      (flutter_blue_plus_winrt_plugin_h nestedSample cppImplTable).2 = true ∧
    (textOf (flutter_blue_plus_winrt_plugin_h nestedSample cppImplTable).2).count Tok.lbrace =
      (textOf (flutter_blue_plus_winrt_plugin_h nestedSample cppImplTable).2).count Tok.rbrace) :=
  ⟨nestedSample_respects, by decide,
    linkage_wrapper nestedSample cppImplTable nestedSample_respects (by decide)⟩

end FlutterBluePlusWinrt
